import Mathlib

/-!
Verification development for the nebula-orion Betelgeuse client core:
the transport request handler (api/base.py, BaseAPIClient.request),
the domain model validation layer (models/base.py, models/page.py,
models/database.py, models/block.py, pydantic model_validate),
the block factory (client.py, _parse_block_data), and the pagination
engine (client.py, NotionClient.query_database and
NotionClient.retrieve_block_children).

The Python code is shallowly embedded: JSON payloads are an inductive
type, network transport is modelled as a supplied outcome (an HTTP
response or a requests-level exception), and Python exceptions become
an explicit error type threaded through Except.  Generator-based
pagination is modelled as a function from a list of transport outcomes
(the pages the server would serve, in order) to the trace of issued
requests, the items yielded to the consumer, and how the walk stopped.
-/

namespace Orion

/-- A JSON value, the payload currency of the client.  Numbers are
modelled as integers (no property in this development depends on
floating point). -/
inductive JSON where
  | null
  | bool (b : Bool)
  | num (n : Int)
  | str (s : String)
  | arr (elems : List JSON)
  | obj (fields : List (String × JSON))
deriving Repr, Inhabited

mutual

/-- Decidable equality for JSON values (hand-written because deriving
does not support this nested inductive). -/
def JSON.decEq : (a b : JSON) → Decidable (a = b)
  | .null, .null => .isTrue rfl
  | .bool a, .bool b =>
    if h : a = b then .isTrue (by rw [h]) else .isFalse (by simp [h])
  | .num a, .num b =>
    if h : a = b then .isTrue (by rw [h]) else .isFalse (by simp [h])
  | .str a, .str b =>
    if h : a = b then .isTrue (by rw [h]) else .isFalse (by simp [h])
  | .arr xs, .arr ys =>
    match JSON.decEqList xs ys with
    | .isTrue h => .isTrue (by rw [h])
    | .isFalse h => .isFalse (by simp [h])
  | .obj fs, .obj gs =>
    match JSON.decEqFields fs gs with
    | .isTrue h => .isTrue (by rw [h])
    | .isFalse h => .isFalse (by simp [h])
  | .null, .bool _ => .isFalse (by simp)
  | .null, .num _ => .isFalse (by simp)
  | .null, .str _ => .isFalse (by simp)
  | .null, .arr _ => .isFalse (by simp)
  | .null, .obj _ => .isFalse (by simp)
  | .bool _, .null => .isFalse (by simp)
  | .bool _, .num _ => .isFalse (by simp)
  | .bool _, .str _ => .isFalse (by simp)
  | .bool _, .arr _ => .isFalse (by simp)
  | .bool _, .obj _ => .isFalse (by simp)
  | .num _, .null => .isFalse (by simp)
  | .num _, .bool _ => .isFalse (by simp)
  | .num _, .str _ => .isFalse (by simp)
  | .num _, .arr _ => .isFalse (by simp)
  | .num _, .obj _ => .isFalse (by simp)
  | .str _, .null => .isFalse (by simp)
  | .str _, .bool _ => .isFalse (by simp)
  | .str _, .num _ => .isFalse (by simp)
  | .str _, .arr _ => .isFalse (by simp)
  | .str _, .obj _ => .isFalse (by simp)
  | .arr _, .null => .isFalse (by simp)
  | .arr _, .bool _ => .isFalse (by simp)
  | .arr _, .num _ => .isFalse (by simp)
  | .arr _, .str _ => .isFalse (by simp)
  | .arr _, .obj _ => .isFalse (by simp)
  | .obj _, .null => .isFalse (by simp)
  | .obj _, .bool _ => .isFalse (by simp)
  | .obj _, .num _ => .isFalse (by simp)
  | .obj _, .str _ => .isFalse (by simp)
  | .obj _, .arr _ => .isFalse (by simp)

def JSON.decEqList : (a b : List JSON) → Decidable (a = b)
  | [], [] => .isTrue rfl
  | [], _ :: _ => .isFalse (by simp)
  | _ :: _, [] => .isFalse (by simp)
  | x :: xs, y :: ys =>
    match JSON.decEq x y with
    | .isTrue h1 =>
      match JSON.decEqList xs ys with
      | .isTrue h2 => .isTrue (by rw [h1, h2])
      | .isFalse h2 => .isFalse (by simp [h2])
    | .isFalse h1 => .isFalse (by simp [h1])

def JSON.decEqFields : (a b : List (String × JSON)) → Decidable (a = b)
  | [], [] => .isTrue rfl
  | [], _ :: _ => .isFalse (by simp)
  | _ :: _, [] => .isFalse (by simp)
  | (k1, v1) :: ps, (k2, v2) :: qs =>
    if hk : k1 = k2 then
      match JSON.decEq v1 v2 with
      | .isTrue hv =>
        match JSON.decEqFields ps qs with
        | .isTrue hps => .isTrue (by rw [hk, hv, hps])
        | .isFalse hps => .isFalse (by simp [hps])
      | .isFalse hv => .isFalse (by simp [hv])
    else .isFalse (by simp [hk])

end

instance : DecidableEq JSON := JSON.decEq

namespace JSON

/-- Python dict lookup on a decoded JSON object: first binding wins. -/
def lookup (fields : List (String × JSON)) (k : String) : Option JSON :=
  (fields.find? (fun p => p.1 == k)).map Prod.snd

/-- Python dict.get with a default value. -/
def dictGet (fields : List (String × JSON)) (k : String) (d : JSON) : JSON :=
  (lookup fields k).getD d

/-- Python truthiness of a decoded JSON value (bool(x)). -/
def truthy : JSON → Bool
  | .null => false
  | .bool b => b
  | .num n => n != 0
  | .str s => s != ""
  | .arr xs => !xs.isEmpty
  | .obj fs => !fs.isEmpty

mutual

/-- Serialization of a JSON value, modelling json.dumps.  Used only to
build coherent HTTP response bodies (raw text next to its decoded
value); no property depends on the exact text beyond emptiness. -/
def render : JSON → String
  | .null => "null"
  | .bool true => "true"
  | .bool false => "false"
  | .num n => toString n
  | .str s => "\"" ++ s ++ "\""
  | .arr xs => "[" ++ renderElems xs ++ "]"
  | .obj fs => "\x7b" ++ renderFields fs ++ "\x7d"

def renderElems : List JSON → String
  | [] => ""
  | [x] => render x
  | x :: xs => render x ++ ", " ++ renderElems xs

def renderFields : List (String × JSON) → String
  | [] => ""
  | [p] => "\"" ++ p.1 ++ "\": " ++ render p.2
  | p :: ps => "\"" ++ p.1 ++ "\": " ++ render p.2 ++ ", " ++ renderFields ps

end

/-- Python str() of a decoded JSON value, used only inside diagnostic
messages (f-string interpolation of block ids). -/
def pyStr : JSON → String
  | .null => "None"
  | .bool true => "True"
  | .bool false => "False"
  | .num n => toString n
  | .str s => s
  | v => render v

end JSON

/-- The Python exceptions that can cross the boundary of the embedded
operations.  The first three are the library taxonomy rooted at
BetelgeuseError (errors.py): BetelgeuseError itself is the local
failure kind, NotionAPIError the API rejection kind, NotionRequestError
the transport failure kind.  ValidationError is pydantic's (not a
library error); AttributeError and TypeError are Python builtins. -/
inductive PyExc where
  | betelgeuseError (msg : String)
  | notionAPIError (status : Int) (errorCode : JSON) (message : JSON)
  | notionRequestError (msg : String)
  | validationError (model : String)
  | attributeError (msg : String)
  | typeError (msg : String)
deriving Repr, DecidableEq

/-- Membership in the library error taxonomy: true exactly for the
three variants of the single base error BetelgeuseError (errors.py),
i.e. LocalFailure, APIRejection and TransportFailure. -/
def PyExc.isTaxonomyError : PyExc → Bool
  | .betelgeuseError _ => true
  | .notionAPIError _ _ _ => true
  | .notionRequestError _ => true
  | _ => false

/-- An HTTP response as seen by BaseAPIClient.request: the status code,
the raw body text, and the result of attempting to JSON-decode that
text (some value when decodable, none when response.json() would raise
JSONDecodeError). -/
structure HTTPResponse where
  status : Int
  text : String
  json? : Option JSON
deriving Repr, DecidableEq

/-- requests.Response.ok: false exactly for the HTTP error codes
(400 <= status < 600). -/
def HTTPResponse.ok (r : HTTPResponse) : Bool :=
  !(400 ≤ r.status ∧ r.status < 600 : Bool)

/-- One low-level transport call outcome: either a response arrived, or
the requests library raised a RequestException (network error, timeout,
and so on) carrying a message. -/
inductive TransportOutcome where
  | resp (r : HTTPResponse)
  | exn (msg : String)
deriving Repr, DecidableEq

/-- The path precondition of BaseAPIClient.request, Python
path.startswith("/") for the one-character pattern: the first character
of the path is a slash. -/
def startsWithSlash (path : String) : Bool :=
  match path.data with
  | c :: _ => c == '/'
  | [] => false

/-- BaseAPIClient.request (api/base.py lines 92-189) given the outcome
of the one transport call it makes.  Mirrors the source control flow:
path check, RequestException to NotionRequestError, non-ok responses to
NotionAPIError (structured error body via dict.get with defaults,
undecodable body via the unknown_error_format branch; a body that
decodes to a non-dict makes error_data.get raise AttributeError, which
none of the except clauses catches), ok responses to the decoded JSON,
empty/204 bodies to an empty dict, and undecodable ok bodies to
BetelgeuseError. -/
def BaseAPIClient.request (path : String) (outcome : TransportOutcome) :
    Except PyExc JSON :=
  if ¬ startsWithSlash path then
    .error (.betelgeuseError ("Invalid API path format: " ++ path))
  else
    match outcome with
    | .exn m => .error (.notionRequestError ("HTTP Request failed: " ++ m))
    | .resp r =>
      if ¬ r.ok then
        match r.json? with
        | some (.obj fs) =>
          .error (.notionAPIError r.status
            (JSON.dictGet fs "code" (.str "unknown_api_code"))
            (JSON.dictGet fs "message" (.str "No message provided.")))
        | some _ =>
          .error (.attributeError "error body decoded to a non-dict value; error_data.get raised AttributeError")
        | none =>
          let errorText := if r.text = "" then "No response body" else r.text
          .error (.notionAPIError r.status (.str "unknown_error_format")
            (.str ("Unknown error format. Response body: " ++ errorText.take 200 ++ "...")))
      else
        if r.status = 204 ∨ r.text = "" then .ok (.obj [])
        else
          match r.json? with
          | some j => .ok j
          | none =>
            .error (.betelgeuseError
              ("Failed to decode successful API response JSON: " ++ r.text.take 200 ++ "..."))

/-! ## Domain model validation layer

Pydantic model_validate for BaseObjectModel, Page, Database, Block and
the specific Block variants (models/base.py, models/page.py,
models/database.py, models/block.py, blocks/text.py).  A validator is a
boolean check on the field list of a decoded JSON object; extra fields
are ignored (model_config extra=ignore throughout).  The pydantic
datetime validator is third-party behaviour, modelled here as: a JSON
number (epoch timestamp) or a string in the ISO-8601 shape
YYYY-MM-DD[(T or space)HH:MM:SS[.digits][Z or +HH:MM or -HH:MM]].
No claim in this development depends on the fine points of calendar
validity. -/

/-- Timezone suffix of an ISO-8601 timestamp: empty, Z, or +HH:MM / -HH:MM. -/
def isTZPart : List Char → Bool
  | [] => true
  | ['Z'] => true
  | [sgn, h1, h2, ':', n1, n2] =>
    (sgn == '+' || sgn == '-') && [h1, h2, n1, n2].all Char.isDigit
  | _ => false

/-- Optional fractional-seconds part followed by the timezone suffix. -/
def isFracTZPart : List Char → Bool
  | '.' :: rest =>
    let ds := rest.takeWhile Char.isDigit
    !ds.isEmpty && isTZPart (rest.dropWhile Char.isDigit)
  | cs => isTZPart cs

/-- Optional time-of-day part of an ISO-8601 timestamp. -/
def isTimePart : List Char → Bool
  | [] => true
  | sep :: h1 :: h2 :: ':' :: n1 :: n2 :: ':' :: s1 :: s2 :: rest =>
    (sep == 'T' || sep == ' ') && [h1, h2, n1, n2, s1, s2].all Char.isDigit
      && isFracTZPart rest
  | _ => false

/-- ISO-8601 timestamp shape accepted by the datetime validator. -/
def isISO8601 (s : String) : Bool :=
  match s.toList with
  | y1 :: y2 :: y3 :: y4 :: '-' :: m1 :: m2 :: '-' :: d1 :: d2 :: rest =>
    [y1, y2, y3, y4, m1, m2, d1, d2].all Char.isDigit && isTimePart rest
  | _ => false

/-- A JSON value acceptable for a pydantic datetime field. -/
def isDatetimeJSON : JSON → Bool
  | .num _ => true
  | .str s => isISO8601 s
  | _ => false

/-- A JSON value acceptable for a str field (pydantic lax mode does not
coerce other primitives to str). -/
def isStrJSON : JSON → Bool
  | .str _ => true
  | _ => false

/-- A JSON value acceptable for a bool field. -/
def isBoolJSON : JSON → Bool
  | .bool _ => true
  | _ => false

/-- A JSON value acceptable for a dict[str, Any] field. -/
def isObjJSON : JSON → Bool
  | .obj _ => true
  | _ => false

/-- A JSON value acceptable for an optional dict field (dict or None). -/
def isObjOrNull : JSON → Bool
  | .obj _ => true
  | .null => true
  | _ => false

/-- A JSON value acceptable for an optional str field (str or None). -/
def isStrOrNull : JSON → Bool
  | .str _ => true
  | .null => true
  | _ => false

/-- A JSON value acceptable for a dict[str, str] field. -/
def isDictStrStr : JSON → Bool
  | .obj fs => fs.all (fun p => isStrJSON p.2)
  | _ => false

/-- A JSON value acceptable for a list field whose elements satisfy p. -/
def isArrOf (p : JSON → Bool) : JSON → Bool
  | .arr xs => xs.all p
  | _ => false

/-- A required model field: present and of the right shape. -/
def reqOk (fs : List (String × JSON)) (k : String) (p : JSON → Bool) : Bool :=
  match JSON.lookup fs k with
  | some v => p v
  | none => false

/-- An optional model field: absent (default applies) or of the right shape. -/
def optOk (fs : List (String × JSON)) (k : String) (p : JSON → Bool) : Bool :=
  match JSON.lookup fs k with
  | some v => p v
  | none => true

/-- The string value of a field known to hold a string (empty otherwise). -/
def getStrD (fs : List (String × JSON)) (k : String) : String :=
  match JSON.lookup fs k with
  | some (.str s) => s
  | _ => ""

/-- The boolean value of a field, with the model default. -/
def getBoolD (fs : List (String × JSON)) (k : String) (d : Bool) : Bool :=
  match JSON.lookup fs k with
  | some (.bool b) => b
  | _ => d

/-- The object-field list of a field, with the model default. -/
def getObjD (fs : List (String × JSON)) (k : String) : List (String × JSON) :=
  match JSON.lookup fs k with
  | some (.obj ps) => ps
  | _ => []

/-- The array elements of a field, with the model default. -/
def getArrD (fs : List (String × JSON)) (k : String) : List JSON :=
  match JSON.lookup fs k with
  | some (.arr xs) => xs
  | _ => []

/-- Common field checks of BaseObjectModel (models/base.py): id, the two
timestamps and parent are required; archived, url, created_by and
last_edited_by are optional with defaults.  The object discriminator is
checked separately because each concrete model narrows it to a literal
with a default. -/
def baseFieldsOk (fs : List (String × JSON)) : Bool :=
  reqOk fs "id" isStrJSON
    && reqOk fs "created_time" isDatetimeJSON
    && reqOk fs "last_edited_time" isDatetimeJSON
    && optOk fs "archived" isBoolJSON
    && reqOk fs "parent" isObjJSON
    && optOk fs "url" isStrJSON
    && optOk fs "created_by" isObjOrNull
    && optOk fs "last_edited_by" isObjOrNull

/-- The object field narrowed to Literal[tag] with default tag: if
present it must equal the literal, if absent the default applies. -/
def objectLitOk (fs : List (String × JSON)) (tag : String) : Bool :=
  optOk fs "object" (fun v => v == .str tag)

/-- A validated Page (models/page.py).  Timestamps are kept as the raw
validated JSON values. -/
structure Page where
  id : String
  created_time : JSON
  last_edited_time : JSON
  archived : Bool
  parent : JSON
  url : String
  properties : List (String × JSON)
deriving Repr, DecidableEq

/-- Page.model_validate: BaseObjectModel checks, object narrowed to
the literal page, properties a dict of dicts (default empty), icon and
cover optional dicts.  Failure is a pydantic ValidationError. -/
def validatePage (j : JSON) : Except PyExc Page :=
  match j with
  | .obj fs =>
    if baseFieldsOk fs && objectLitOk fs "page"
        && optOk fs "properties" (fun v =>
             match v with
             | .obj ps => ps.all (fun p => isObjJSON p.2)
             | _ => false)
        && optOk fs "icon" isObjOrNull
        && optOk fs "cover" isObjOrNull then
      .ok { id := getStrD fs "id"
            created_time := JSON.dictGet fs "created_time" .null
            last_edited_time := JSON.dictGet fs "last_edited_time" .null
            archived := getBoolD fs "archived" false
            parent := JSON.dictGet fs "parent" .null
            url := getStrD fs "url"
            properties := getObjD fs "properties" }
    else .error (.validationError "Page")
  | _ => .error (.validationError "Page")

/-- A validated Database (models/database.py). -/
structure Database where
  id : String
  created_time : JSON
  last_edited_time : JSON
  archived : Bool
  parent : JSON
  url : String
  title : List JSON
  description : List JSON
  properties : List (String × JSON)
  is_inline : Bool
deriving Repr, DecidableEq

/-- Database.model_validate: BaseObjectModel checks, object narrowed to
the literal database, title and description lists of dicts (default
empty), properties a dict of dicts, is_inline a bool, icon and cover
optional dicts. -/
def validateDatabase (j : JSON) : Except PyExc Database :=
  match j with
  | .obj fs =>
    if baseFieldsOk fs && objectLitOk fs "database"
        && optOk fs "title" (isArrOf isObjJSON)
        && optOk fs "description" (isArrOf isObjJSON)
        && optOk fs "properties" (fun v =>
             match v with
             | .obj ps => ps.all (fun p => isObjJSON p.2)
             | _ => false)
        && optOk fs "is_inline" isBoolJSON
        && optOk fs "icon" isObjOrNull
        && optOk fs "cover" isObjOrNull then
      .ok { id := getStrD fs "id"
            created_time := JSON.dictGet fs "created_time" .null
            last_edited_time := JSON.dictGet fs "last_edited_time" .null
            archived := getBoolD fs "archived" false
            parent := JSON.dictGet fs "parent" .null
            url := getStrD fs "url"
            title := getArrD fs "title"
            description := getArrD fs "description"
            properties := getObjD fs "properties"
            is_inline := getBoolD fs "is_inline" false }
    else .error (.validationError "Database")
  | _ => .error (.validationError "Database")

/-- The optional type-specific content fields declared on the base
Block model (models/block.py), each dict or None. -/
def blockContentFields : List String :=
  ["paragraph", "heading_1", "heading_2", "heading_3",
   "bulleted_list_item", "numbered_list_item", "to_do", "toggle",
   "child_page", "child_database", "embed", "image", "video", "file",
   "pdf", "bookmark", "callout", "quote", "equation", "divider",
   "table_of_contents", "breadcrumb", "column_list", "column",
   "link_preview", "link_to_page", "synced_block", "template",
   "table", "table_row", "unsupported"]

/-- A validated Block.  The variant field records which Python class
the instance has: none for the base Block model, some tag for a
specific subclass out of BLOCK_TYPE_MAP (the dynamic class of the
object, not a source field). -/
structure Block where
  id : String
  type : String
  has_children : Bool
  archived : Bool
  parent : JSON
  url : String
  variant : Option String
deriving Repr, DecidableEq

/-- Construct a Block record from validated fields.  For a specific
variant the type literal carries default tag when the field is absent. -/
def mkBlock (variant : Option String) (tag : String) (fs : List (String × JSON)) : Block :=
  { id := getStrD fs "id"
    type :=
      match JSON.lookup fs "type" with
      | some (.str s) => s
      | _ => tag
    has_children := getBoolD fs "has_children" false
    archived := getBoolD fs "archived" false
    parent := JSON.dictGet fs "parent" .null
    url := getStrD fs "url"
    variant := variant }

/-- Block.model_validate for the generic base Block (models/block.py):
BaseObjectModel checks, object narrowed to the literal block, a
required type string, an optional has_children bool, and every declared
content field, if present, a dict or None. -/
def validateBlock (j : JSON) : Except PyExc Block :=
  match j with
  | .obj fs =>
    if baseFieldsOk fs && objectLitOk fs "block"
        && reqOk fs "type" isStrJSON
        && optOk fs "has_children" isBoolJSON
        && blockContentFields.all (fun k => optOk fs k isObjOrNull) then
      .ok (mkBlock none "" fs)
    else .error (.validationError "Block")
  | _ => .error (.validationError "Block")

/-! ## Specific block variants and the block factory

The content models of blocks/text.py and models/common.py, the static
type-to-constructor mapping BLOCK_TYPE_MAP and the factory
_parse_block_data (client.py lines 46-119). -/

/-- Annotations (models/common.py): all fields optional with defaults. -/
def annotOk : JSON → Bool
  | .obj fs =>
    optOk fs "bold" isBoolJSON && optOk fs "italic" isBoolJSON
      && optOk fs "strikethrough" isBoolJSON && optOk fs "underline" isBoolJSON
      && optOk fs "code" isBoolJSON && optOk fs "color" isStrJSON
  | _ => false

/-- TextData (models/common.py): required content string, optional link
dict of strings or None. -/
def textDataOk : JSON → Bool
  | .obj fs =>
    reqOk fs "content" isStrJSON
      && optOk fs "link" (fun v => v == .null || isDictStrStr v)
  | _ => false

/-- EquationData (models/common.py): required expression string. -/
def equationDataOk : JSON → Bool
  | .obj fs => reqOk fs "expression" isStrJSON
  | _ => false

/-- AnyRichText (models/common.py): the union of the three RichText
variants, each the RichTextBase fields (required plain_text string,
optional href, required Annotations) plus its own literal type tag and
payload.  The union accepts a value iff some member validates. -/
def richTextOk (j : JSON) : Bool :=
  match j with
  | .obj fs =>
    (reqOk fs "plain_text" isStrJSON && optOk fs "href" isStrOrNull
        && reqOk fs "annotations" annotOk)
      && ((optOk fs "type" (fun v => v == .str "text") && reqOk fs "text" textDataOk)
        || (optOk fs "type" (fun v => v == .str "mention") && reqOk fs "mention" isObjJSON)
        || (optOk fs "type" (fun v => v == .str "equation") && reqOk fs "equation" equationDataOk))
  | _ => false

/-- IconData (models/common.py): required type literal emoji or
external, optional emoji string, optional external dict of strings. -/
def iconDataOk : JSON → Bool
  | .obj fs =>
    reqOk fs "type" (fun v => v == .str "emoji" || v == .str "external")
      && optOk fs "emoji" isStrOrNull
      && optOk fs "external" (fun v => v == .null || isDictStrStr v)
  | _ => false

/-- TextBlockContent (blocks/text.py): optional rich_text list of
AnyRichText (default empty), optional color string. -/
def textContentOk : JSON → Bool
  | .obj fs =>
    optOk fs "rich_text" (isArrOf richTextOk) && optOk fs "color" isStrJSON
  | _ => false

/-- HeadingBlockContent: TextBlockContent plus optional is_toggleable. -/
def headingContentOk : JSON → Bool
  | .obj fs =>
    optOk fs "rich_text" (isArrOf richTextOk) && optOk fs "color" isStrJSON
      && optOk fs "is_toggleable" isBoolJSON
  | _ => false

/-- CalloutBlockContent: TextBlockContent plus optional icon. -/
def calloutContentOk : JSON → Bool
  | .obj fs =>
    optOk fs "rich_text" (isArrOf richTextOk) && optOk fs "color" isStrJSON
      && optOk fs "icon" (fun v => v == .null || iconDataOk v)
  | _ => false

/-- ToDoBlockContent: TextBlockContent plus optional checked. -/
def toDoContentOk : JSON → Bool
  | .obj fs =>
    optOk fs "rich_text" (isArrOf richTextOk) && optOk fs "color" isStrJSON
      && optOk fs "checked" isBoolJSON
  | _ => false

/-- The content validator of the specific variant registered for tag. -/
def contentValidatorFor (tag : String) : JSON → Bool :=
  if tag == "heading_1" || tag == "heading_2" || tag == "heading_3" then headingContentOk
  else if tag == "callout" then calloutContentOk
  else if tag == "to_do" then toDoContentOk
  else textContentOk

/-- The keys of BLOCK_TYPE_MAP (client.py lines 46-59), the static
mapping from the type discriminator to a specific Block subclass. -/
def BLOCK_TYPE_MAP : List String :=
  ["paragraph", "heading_1", "heading_2", "heading_3", "callout",
   "quote", "bulleted_list_item", "numbered_list_item", "to_do", "toggle"]

/-- model_validate against the specific variant registered for tag
(blocks/text.py): the generic Block checks with the type literal
narrowed to tag, the content field for tag required and validated
against its content model, the remaining declared content fields
optional dicts. -/
def validateSpecificBlock (tag : String) (fs : List (String × JSON)) : Bool :=
  baseFieldsOk fs && objectLitOk fs "block"
    && optOk fs "type" (fun v => v == .str tag)
    && optOk fs "has_children" isBoolJSON
    && reqOk fs tag (contentValidatorFor tag)
    && blockContentFields.all (fun k => k == tag || optOk fs k isObjOrNull)

/-- The fallback arm of _parse_block_data (client.py lines 105-119):
validate against the generic Block; if even that fails, raise
BetelgeuseError naming the block id. -/
def blockFallback (fs : List (String × JSON)) : Except PyExc Block :=
  match validateBlock (.obj fs) with
  | .ok b => .ok b
  | .error _ =>
    .error (.betelgeuseError
      ("Failed to parse base block data for ID "
        ++ JSON.pyStr (JSON.dictGet fs "id" (.str "unknown_id"))))

/-- _parse_block_data (client.py lines 62-119).  A falsy type value is
replaced by the string unknown before the map lookup; a truthy non-str
type that is unhashable (list or dict) makes the Python dict lookup
raise TypeError; a mapped tag tries the specific variant and falls back
to the generic Block on its ValidationError; anything else goes
straight to the generic fallback.  A non-dict argument fails at
block_data.get with AttributeError. -/
def parseBlockData (blockData : JSON) : Except PyExc Block :=
  match blockData with
  | .obj fs =>
    let rawType := JSON.dictGet fs "type" .null
    let blockType := if JSON.truthy rawType then rawType else .str "unknown"
    match blockType with
    | .str s =>
      if BLOCK_TYPE_MAP.contains s then
        if validateSpecificBlock s fs then .ok (mkBlock (some s) s fs)
        else blockFallback fs
      else blockFallback fs
    | .arr _ => .error (.typeError "unhashable type: list")
    | .obj _ => .error (.typeError "unhashable type: dict")
    | _ => blockFallback fs
  | _ => .error (.attributeError "block data is not a dict; block_data.get raised AttributeError")

/-! ## Pagination engine

The generator bodies of NotionClient.query_database (client.py lines
216-304) and NotionClient.retrieve_block_children (lines 307-414).
The server side is a list of transport outcomes, consumed one per loop
iteration; the walk records the pagination parameters of every issued
request, the items yielded to the consumer in order, and how the
sequence ended. -/

/-- The pagination parameters of one issued transport call: the
page_size sent and the start_cursor sent (none when the cursor state
was falsy and the key was omitted). -/
structure SentRequest where
  pageSize : Int
  cursor : Option JSON
deriving Repr, DecidableEq

/-- How a pagination walk ended: normal termination (has_more falsy),
an exception propagating to the consumer, or the model ran out of
supplied transport outcomes while the loop still wanted more. -/
inductive WalkStop where
  | done
  | exc (e : PyExc)
  | starved
deriving Repr, DecidableEq

/-- The observable trace of a pagination walk. -/
structure WalkResult (α : Type) where
  calls : List SentRequest
  items : List α
  stop : WalkStop
deriving Repr, DecidableEq

/-- Python iteration over the value bound to results: a list yields its
elements, a dict its keys, a string its characters, anything else
raises TypeError. -/
def pyIter : JSON → Except PyExc (List JSON)
  | .arr xs => .ok xs
  | .obj fs => .ok (fs.map (fun p => .str p.1))
  | .str s => .ok (s.toList.map (fun c => .str (String.singleton c)))
  | _ => .error (.typeError "object is not iterable")

/-- The per-item loop over one page of results: parse each item, yield
successes in order, skip an item whose failure the except clause
catches, abort the page (and the walk) on one it does not.  Returns the
yielded items and the propagating exception, if any. -/
def processItems (parseItem : JSON → Except PyExc α) (isCaught : PyExc → Bool) :
    List JSON → List α × Option PyExc
  | [] => ([], none)
  | x :: xs =>
    match parseItem x with
    | .ok a =>
      let r := processItems parseItem isCaught xs
      (a :: r.1, r.2)
    | .error e =>
      if isCaught e then processItems parseItem isCaught xs
      else ([], some e)

/-- The cursor value actually sent: the key is included only when the
cursor state is truthy. -/
def cursorOpt (c : Orion.JSON) : Option Orion.JSON :=
  if JSON.truthy c then some c else none

/-- The while has_more loop shared by the two list operations, one
iteration per supplied transport outcome: issue the call, funnel the
outcome through BaseAPIClient.request, check the list envelope, iterate
the results with the per-item handler, then advance has_more and the
cursor from the page and continue while has_more is truthy. -/
def paginateGo (parseItem : JSON → Except PyExc α) (isCaught : PyExc → Bool)
    (envMsg : String) (path : String) (ps : Int) :
    JSON → List TransportOutcome → WalkResult α
  | _, [] => ⟨[], [], .starved⟩
  | cursor, o :: rest =>
    let sent : SentRequest := ⟨ps, cursorOpt cursor⟩
    match BaseAPIClient.request path o with
    | .error e => ⟨[sent], [], .exc e⟩
    | .ok respData =>
      match respData with
      | .obj fs =>
        if JSON.dictGet fs "object" .null = .str "list" then
          match pyIter (JSON.dictGet fs "results" (.arr [])) with
          | .error e => ⟨[sent], [], .exc e⟩
          | .ok itemsRaw =>
            let pr := processItems parseItem isCaught itemsRaw
            match pr.2 with
            | some e => ⟨[sent], pr.1, .exc e⟩
            | none =>
              let hasMore := JSON.truthy (JSON.dictGet fs "has_more" (.bool false))
              let cursorNext := JSON.dictGet fs "next_cursor" .null
              if hasMore then
                let r := paginateGo parseItem isCaught envMsg path ps cursorNext rest
                ⟨sent :: r.calls, pr.1 ++ r.items, r.stop⟩
              else ⟨[sent], pr.1, .done⟩
        else ⟨[sent], [], .exc (.betelgeuseError envMsg)⟩
      | _ => ⟨[sent], [], .exc (.betelgeuseError envMsg)⟩

/-- The per-item except clause of query_database: only pydantic
ValidationError is caught and skipped. -/
def catchesValidationError : PyExc → Bool
  | .validationError _ => true
  | _ => false

/-- The per-item except clauses of retrieve_block_children: except
BetelgeuseError and except Exception both continue, so every per-item
failure is skipped. -/
def catchesEverything : PyExc → Bool := fun _ => true

/-- Clamping of the page_size argument (client.py lines 226-228 and
335-337): out-of-range values are replaced by 100 before the loop. -/
def clampPageSize (pageSize : Int) : Int :=
  if 1 ≤ pageSize ∧ pageSize ≤ 100 then pageSize else 100

/-- NotionClient.query_database as a pagination walk: POST to the query
endpoint, items validated as Page, only ValidationError skipped. -/
def NotionClient.query_database (databaseId : String) (pageSize : Int)
    (outcomes : List TransportOutcome) : WalkResult Page :=
  paginateGo validatePage catchesValidationError
    "Unexpected response format received for database query."
    ("/v1/databases/" ++ databaseId ++ "/query")
    (clampPageSize pageSize) .null outcomes

/-- NotionClient.retrieve_block_children as a pagination walk: GET on
the children endpoint, items parsed by the block factory, every
per-item failure skipped. -/
def NotionClient.retrieve_block_children (blockId : String) (pageSize : Int)
    (outcomes : List TransportOutcome) : WalkResult Block :=
  paginateGo parseBlockData catchesEverything
    "Unexpected response format received for block children."
    ("/v1/blocks/" ++ blockId ++ "/children")
    (clampPageSize pageSize) .null outcomes

/-- A well-formed list page as served by the API: a 200 response whose
body is the list envelope with the given results, has_more flag and
next_cursor. -/
def mkListPage (results : List JSON) (hasMore : Bool) (nextCursor : JSON) :
    TransportOutcome :=
  let env : JSON := .obj
    [("object", .str "list"), ("results", .arr results),
     ("has_more", .bool hasMore), ("next_cursor", nextCursor)]
  .resp ⟨200, env.render, some env⟩

/-! ## Helper lemmas -/

/-- Rendering an object produces a nonempty body. -/
theorem render_obj_ne_empty (fs : List (String × JSON)) :
    JSON.render (.obj fs) ≠ "" := by
  intro hc
  have h : (JSON.render (.obj fs)).data = [] := by rw [hc]
  rw [JSON.render] at h
  rw [String.data_append, String.data_append] at h
  simp [List.append_eq_nil] at h

/-- A served list page passes through request as its decoded envelope. -/
theorem request_mkListPage (path : String) (hpath : startsWithSlash path = true)
    (results : List JSON) (hasMore : Bool) (nextCursor : JSON) :
    BaseAPIClient.request path (mkListPage results hasMore nextCursor)
      = .ok (.obj [("object", .str "list"), ("results", .arr results),
          ("has_more", .bool hasMore), ("next_cursor", nextCursor)]) := by
  have hne := render_obj_ne_empty
    [("object", JSON.str "list"), ("results", JSON.arr results),
     ("has_more", JSON.bool hasMore), ("next_cursor", nextCursor)]
  simp [mkListPage, BaseAPIClient.request, hpath, HTTPResponse.ok, hne]

/-- One loop iteration of the pagination engine on a served list page
whose per-item processing does not propagate an exception: the call is
recorded, the page items are yielded, and the walk either continues
with the next cursor (has_more true) or stops normally. -/
theorem paginateGo_mkListPage {α : Type} (P : JSON → Except PyExc α) (C : PyExc → Bool)
    (M path : String) (ps : Int) (cursor : JSON)
    (results : List JSON) (more : Bool) (next : JSON)
    (rest : List TransportOutcome)
    (hpath : startsWithSlash path = true)
    (hproc : (processItems P C results).2 = none) :
    paginateGo P C M path ps cursor (mkListPage results more next :: rest)
      = if more then
          ⟨⟨ps, cursorOpt cursor⟩ :: (paginateGo P C M path ps next rest).calls,
           (processItems P C results).1 ++ (paginateGo P C M path ps next rest).items,
           (paginateGo P C M path ps next rest).stop⟩
        else ⟨[⟨ps, cursorOpt cursor⟩], (processItems P C results).1, .done⟩ := by
  cases more with
  | false =>
    simp only [paginateGo]
    rw [request_mkListPage path hpath]
    simp [JSON.dictGet, JSON.lookup, List.find?, pyIter, JSON.truthy, hproc]
  | true =>
    simp only [paginateGo]
    rw [request_mkListPage path hpath]
    simp [JSON.dictGet, JSON.lookup, List.find?, pyIter, JSON.truthy, hproc]

/-- One loop iteration on an outcome the request handler turns into an
exception: the call is recorded, nothing is yielded, the exception
propagates and the walk ends. -/
theorem paginateGo_error {α : Type} (P : JSON → Except PyExc α) (C : PyExc → Bool)
    (M path : String) (ps : Int) (cursor : JSON) (o : TransportOutcome)
    (e : PyExc) (rest : List TransportOutcome)
    (he : BaseAPIClient.request path o = .error e) :
    paginateGo P C M path ps cursor (o :: rest)
      = ⟨[⟨ps, cursorOpt cursor⟩], [], .exc e⟩ := by
  simp only [paginateGo]
  rw [he]

/-- When every parse failure is caught, per-item processing never
propagates an exception. -/
theorem processItems_snd_none {α : Type} (P : JSON → Except PyExc α) (C : PyExc → Bool)
    (hP : ∀ j e, P j = .error e → C e = true) :
    ∀ xs, (processItems P C xs).2 = none := by
  intro xs
  induction xs with
  | nil => rfl
  | cons x xs ih =>
    simp only [processItems]
    cases hx : P x with
    | ok a => simpa using ih
    | error e => simp [hP x e hx, ih]

/-- validatePage only fails with a pydantic ValidationError. -/
theorem validatePage_error_shape (j : JSON) (e : PyExc)
    (h : validatePage j = .error e) : e = .validationError "Page" := by
  unfold validatePage at h
  cases j <;> simp at h <;> try exact h.symm
  case obj fs =>
    split at h
    · simp at h
    · simpa using h.symm

/-- Every issued request of a walk carries the page_size the engine was
started with. -/
theorem paginateGo_calls_pageSize {α : Type} (P : JSON → Except PyExc α) (C : PyExc → Bool)
    (M path : String) (ps : Int) :
    ∀ (outs : List TransportOutcome) (cursor : JSON),
      (paginateGo P C M path ps cursor outs).calls.all (fun c => c.pageSize == ps) := by
  intro outs
  induction outs with
  | nil => intro cursor; rfl
  | cons o rest ih =>
    intro cursor
    simp only [paginateGo]
    split
    · simp
    · split
      · split
        · split
          · simp
          · split
            · simp
            · split
              · simpa using ih _
              · simp
        · simp
      · simp

/-- The sequence of requests issued while walking a run of served pages
that all report has_more true: the first call carries the incoming
cursor state, each later call the next_cursor of the page before it. -/
def prefixCalls (ps : Int) : JSON → List (List JSON × String) → List SentRequest
  | _, [] => []
  | c, p :: rest => ⟨ps, cursorOpt c⟩ :: prefixCalls ps (.str p.2) rest

/-- The cursor state after walking a run of served pages. -/
def lastCursor : JSON → List (List JSON × String) → JSON
  | c, [] => c
  | _, p :: rest => lastCursor (.str p.2) rest

/-- The items yielded while walking a run of served pages, in order. -/
def prefixItems {α : Type} (P : JSON → Except PyExc α) (C : PyExc → Bool) :
    List (List JSON × String) → List α
  | [] => []
  | p :: rest => (processItems P C p.1).1 ++ prefixItems P C rest

/-- A run of served pages that all report has_more true, each carrying
its results and its next_cursor string. -/
def goodPages (specs : List (List JSON × String)) : List TransportOutcome :=
  specs.map (fun p => mkListPage p.1 true (.str p.2))

/-- Walking a run of has_more pages followed by anything: the engine
consumes the run page by page, records its calls and items, and
continues into the tail with the cursor state advanced to the last
next_cursor. -/
theorem paginateGo_goodPages {α : Type} (P : JSON → Except PyExc α) (C : PyExc → Bool)
    (M path : String) (ps : Int)
    (hpath : startsWithSlash path = true)
    (hP : ∀ j e, P j = .error e → C e = true) :
    ∀ (specs : List (List JSON × String)) (cursor : JSON) (rest : List TransportOutcome),
      paginateGo P C M path ps cursor (goodPages specs ++ rest)
        = ⟨prefixCalls ps cursor specs
             ++ (paginateGo P C M path ps (lastCursor cursor specs) rest).calls,
           prefixItems P C specs
             ++ (paginateGo P C M path ps (lastCursor cursor specs) rest).items,
           (paginateGo P C M path ps (lastCursor cursor specs) rest).stop⟩ := by
  intro specs
  induction specs with
  | nil => intro cursor rest; simp [goodPages, prefixCalls, prefixItems, lastCursor]
  | cons p specs ih =>
    intro cursor rest
    have hstep := paginateGo_mkListPage P C M path ps cursor p.1 true (.str p.2)
      (goodPages specs ++ rest) hpath (processItems_snd_none P C hP p.1)
    simp only [goodPages, List.map_cons, List.cons_append] at *
    rw [hstep, ih]
    simp [prefixCalls, prefixItems, lastCursor]

/-- A run of pages issues one request per page. -/
theorem prefixCalls_length (ps : Int) :
    ∀ (specs : List (List JSON × String)) (c : JSON),
      (prefixCalls ps c specs).length = specs.length := by
  intro specs
  induction specs with
  | nil => intro c; rfl
  | cons p specs ih => intro c; simp [prefixCalls, ih]

/-- The cursors sent while walking a run of pages with nonempty
next_cursor strings and then issuing one more request: the incoming
cursor first, then exactly the next_cursor of each page in turn. -/
theorem prefixCalls_cursor_chain (ps : Int) :
    ∀ (specs : List (List JSON × String)) (c : JSON),
      (∀ p ∈ specs, p.2 ≠ "") →
      (prefixCalls ps c specs
          ++ [(⟨ps, cursorOpt (lastCursor c specs)⟩ : SentRequest)]).map SentRequest.cursor
        = cursorOpt c :: specs.map (fun p => some (.str p.2)) := by
  intro specs
  induction specs with
  | nil => intro c h; simp [prefixCalls, lastCursor]
  | cons p specs ih =>
    intro c h
    have hp : p.2 ≠ "" := h p (List.mem_cons_self ..)
    have hrest := ih (.str p.2) (fun q hq => h q (List.mem_cons_of_mem _ hq))
    simp only [prefixCalls, lastCursor, List.cons_append, List.map_cons]
    rw [hrest]
    simp [cursorOpt, JSON.truthy, hp]

/-- The full shape of a walk over a run of has_more pages closed by a
final page with has_more false: the calls, the items, and normal
termination. -/
theorem walk_good_run {α : Type} (P : JSON → Except PyExc α) (C : PyExc → Bool)
    (M path : String) (ps : Int)
    (hpath : startsWithSlash path = true)
    (hP : ∀ j e, P j = .error e → C e = true)
    (specs : List (List JSON × String)) (last : List JSON) :
    paginateGo P C M path ps .null (goodPages specs ++ [mkListPage last false .null])
      = ⟨prefixCalls ps .null specs ++ [⟨ps, cursorOpt (lastCursor .null specs)⟩],
         prefixItems P C specs ++ (processItems P C last).1,
         .done⟩ := by
  rw [paginateGo_goodPages P C M path ps hpath hP specs .null [mkListPage last false .null]]
  rw [paginateGo_mkListPage P C M path ps (lastCursor .null specs) last false .null []
    hpath (processItems_snd_none P C hP last)]
  simp

/-- A walk over a run of has_more pages followed by an outcome the
request handler rejects: the run is consumed, then the exception ends
the walk with no further calls. -/
theorem walk_good_then_error {α : Type} (P : JSON → Except PyExc α) (C : PyExc → Bool)
    (M path : String) (ps : Int)
    (hpath : startsWithSlash path = true)
    (hP : ∀ j e, P j = .error e → C e = true)
    (specs : List (List JSON × String)) (bad : TransportOutcome) (e : PyExc)
    (hbad : BaseAPIClient.request path bad = .error e) :
    paginateGo P C M path ps .null (goodPages specs ++ [bad])
      = ⟨prefixCalls ps .null specs ++ [⟨ps, cursorOpt (lastCursor .null specs)⟩],
         prefixItems P C specs, .exc e⟩ := by
  rw [paginateGo_goodPages P C M path ps hpath hP specs .null [bad]]
  rw [paginateGo_error P C M path ps (lastCursor .null specs) bad e [] hbad]
  simp

/-- A walk over a single served page with has_more false: one call with
no cursor, the page items, normal termination. -/
theorem single_page_walk {α : Type} (P : JSON → Except PyExc α) (C : PyExc → Bool)
    (M path : String) (ps : Int)
    (hpath : startsWithSlash path = true)
    (results : List JSON)
    (hproc : (processItems P C results).2 = none) :
    paginateGo P C M path ps .null [mkListPage results false .null]
      = ⟨[⟨ps, none⟩], (processItems P C results).1, .done⟩ := by
  rw [paginateGo_mkListPage P C M path ps .null results false .null [] hpath hproc]
  simp [cursorOpt, JSON.truthy]

/-- validatePage failures are caught by the query_database per-item
except clause. -/
theorem validatePage_caught :
    ∀ j e, validatePage j = .error e → catchesValidationError e = true := by
  intro j e h
  rw [validatePage_error_shape j e h]
  rfl

/-- Every parseBlockData failure is caught by the
retrieve_block_children per-item except clauses. -/
theorem parseBlockData_caught :
    ∀ j e, parseBlockData j = .error e → catchesEverything e = true :=
  fun _ _ _ => rfl

/-- The two error kinds that a transport call itself can raise:
APIRejection (NotionAPIError) or TransportFailure (NotionRequestError). -/
def PyExc.isAPIOrTransport : PyExc → Bool
  | .notionAPIError _ _ _ => true
  | .notionRequestError _ => true
  | _ => false

/-! ## Claims -/

/-- Claim C1: against a server returning N pages where every page
before the last reports has_more true with a nonempty next_cursor and
the last page reports has_more false, both pagination operations
(query_database and retrieve_block_children) issue exactly N transport
calls, the first call sends no start_cursor, the start_cursor of call
i+1 equals the next_cursor of the response to call i, and the sequence
terminates normally. -/
theorem c1_pagination_termination_cursor_chain
    (dbId blkId : String) (pageSize : Int)
    (specs : List (List JSON × String)) (last : List JSON)
    (hcur : ∀ p ∈ specs, p.2 ≠ "") :
    ((NotionClient.query_database dbId pageSize
        (goodPages specs ++ [mkListPage last false .null])).stop = .done
      ∧ (NotionClient.query_database dbId pageSize
          (goodPages specs ++ [mkListPage last false .null])).calls.length
            = specs.length + 1
      ∧ (NotionClient.query_database dbId pageSize
          (goodPages specs ++ [mkListPage last false .null])).calls.map SentRequest.cursor
            = none :: specs.map (fun p => some (.str p.2)))
    ∧ ((NotionClient.retrieve_block_children blkId pageSize
          (goodPages specs ++ [mkListPage last false .null])).stop = .done
      ∧ (NotionClient.retrieve_block_children blkId pageSize
          (goodPages specs ++ [mkListPage last false .null])).calls.length
            = specs.length + 1
      ∧ (NotionClient.retrieve_block_children blkId pageSize
          (goodPages specs ++ [mkListPage last false .null])).calls.map SentRequest.cursor
            = none :: specs.map (fun p => some (.str p.2))) := by
  have hchain := prefixCalls_cursor_chain (clampPageSize pageSize) specs .null hcur
  have hnullc : cursorOpt .null = none := rfl
  rw [hnullc] at hchain
  constructor
  · simp only [NotionClient.query_database]
    rw [walk_good_run validatePage catchesValidationError
      "Unexpected response format received for database query."
      ("/v1/databases/" ++ dbId ++ "/query") (clampPageSize pageSize) rfl
      validatePage_caught specs last]
    refine ⟨rfl, ?_, ?_⟩
    · simp [prefixCalls_length]
    · exact hchain
  · simp only [NotionClient.retrieve_block_children]
    rw [walk_good_run parseBlockData catchesEverything
      "Unexpected response format received for block children."
      ("/v1/blocks/" ++ blkId ++ "/children") (clampPageSize pageSize) rfl
      parseBlockData_caught specs last]
    refine ⟨rfl, ?_, ?_⟩
    · simp [prefixCalls_length]
    · exact hchain

/-- Witness for C1 at a concrete two-page run. -/
theorem c1_witness :
    (∀ p ∈ ([([], "cur1")] : List (List JSON × String)), p.2 ≠ "")
    ∧ (((NotionClient.query_database "db" 100
          (goodPages [([], "cur1")] ++ [mkListPage [] false .null])).stop = .done
        ∧ (NotionClient.query_database "db" 100
            (goodPages [([], "cur1")] ++ [mkListPage [] false .null])).calls.length
              = ([([], "cur1")] : List (List JSON × String)).length + 1
        ∧ (NotionClient.query_database "db" 100
            (goodPages [([], "cur1")] ++ [mkListPage [] false .null])).calls.map SentRequest.cursor
              = none :: ([([], "cur1")] : List (List JSON × String)).map (fun p => some (.str p.2)))
      ∧ ((NotionClient.retrieve_block_children "blk" 100
            (goodPages [([], "cur1")] ++ [mkListPage [] false .null])).stop = .done
        ∧ (NotionClient.retrieve_block_children "blk" 100
            (goodPages [([], "cur1")] ++ [mkListPage [] false .null])).calls.length
              = ([([], "cur1")] : List (List JSON × String)).length + 1
        ∧ (NotionClient.retrieve_block_children "blk" 100
            (goodPages [([], "cur1")] ++ [mkListPage [] false .null])).calls.map SentRequest.cursor
              = none :: ([([], "cur1")] : List (List JSON × String)).map (fun p => some (.str p.2)))) :=
  ⟨by decide, c1_pagination_termination_cursor_chain "db" "blk" 100 [([], "cur1")] [] (by decide)⟩

/-- A minimal valid Page payload used by concrete witnesses. -/
def samplePageJSON : JSON := .obj
  [("id", .str "p1"), ("object", .str "page"),
   ("created_time", .num 0), ("last_edited_time", .num 0),
   ("parent", .obj [("type", .str "workspace")])]

/-- The Page that samplePageJSON validates to. -/
def samplePage : Page :=
  ⟨"p1", .num 0, .num 0, false, .obj [("type", .str "workspace")], "", []⟩

/-- A minimal valid Block payload of an unmapped type, used by
concrete witnesses. -/
def sampleBlockJSON : JSON := .obj
  [("id", .str "b1"), ("object", .str "block"), ("type", .str "my_custom"),
   ("created_time", .num 0), ("last_edited_time", .num 0),
   ("parent", .obj [])]

/-- The Block that sampleBlockJSON parses to. -/
def sampleBlock : Block := ⟨"b1", "my_custom", false, false, .obj [], "", none⟩

/-- Claim C2: a page of results holding one item whose validation fails
with the caught per-item error and one item that validates delivers
exactly the successful item to the consumer, in either order, and the
page raises no exception to the consumer.  Stated for both engines:
query_database skips a pydantic ValidationError on Page validation,
retrieve_block_children skips a BetelgeuseError from the block factory. -/
theorem c2_per_item_isolation
    (dbId blkId : String) (pageSize : Int)
    (badP goodP badB goodB : JSON) (pg : Page) (bk : Block) (mP mB : String)
    (hbadP : validatePage badP = .error (.validationError mP))
    (hgoodP : validatePage goodP = .ok pg)
    (hbadB : parseBlockData badB = .error (.betelgeuseError mB))
    (hgoodB : parseBlockData goodB = .ok bk) :
    ((NotionClient.query_database dbId pageSize
        [mkListPage [badP, goodP] false .null]).items = [pg]
      ∧ (NotionClient.query_database dbId pageSize
          [mkListPage [badP, goodP] false .null]).stop = .done)
    ∧ ((NotionClient.query_database dbId pageSize
          [mkListPage [goodP, badP] false .null]).items = [pg]
      ∧ (NotionClient.query_database dbId pageSize
          [mkListPage [goodP, badP] false .null]).stop = .done)
    ∧ ((NotionClient.retrieve_block_children blkId pageSize
          [mkListPage [badB, goodB] false .null]).items = [bk]
      ∧ (NotionClient.retrieve_block_children blkId pageSize
          [mkListPage [badB, goodB] false .null]).stop = .done)
    ∧ ((NotionClient.retrieve_block_children blkId pageSize
          [mkListPage [goodB, badB] false .null]).items = [bk]
      ∧ (NotionClient.retrieve_block_children blkId pageSize
          [mkListPage [goodB, badB] false .null]).stop = .done) := by
  have e1 : processItems validatePage catchesValidationError [badP, goodP] = ([pg], none) := by
    simp [processItems, hbadP, hgoodP, catchesValidationError]
  have e2 : processItems validatePage catchesValidationError [goodP, badP] = ([pg], none) := by
    simp [processItems, hbadP, hgoodP, catchesValidationError]
  have e3 : processItems parseBlockData catchesEverything [badB, goodB] = ([bk], none) := by
    simp [processItems, hbadB, hgoodB, catchesEverything]
  have e4 : processItems parseBlockData catchesEverything [goodB, badB] = ([bk], none) := by
    simp [processItems, hbadB, hgoodB, catchesEverything]
  have w1 := single_page_walk validatePage catchesValidationError
    "Unexpected response format received for database query."
    ("/v1/databases/" ++ dbId ++ "/query") (clampPageSize pageSize) rfl
    [badP, goodP] (by rw [e1])
  have w2 := single_page_walk validatePage catchesValidationError
    "Unexpected response format received for database query."
    ("/v1/databases/" ++ dbId ++ "/query") (clampPageSize pageSize) rfl
    [goodP, badP] (by rw [e2])
  have w3 := single_page_walk parseBlockData catchesEverything
    "Unexpected response format received for block children."
    ("/v1/blocks/" ++ blkId ++ "/children") (clampPageSize pageSize) rfl
    [badB, goodB] (by rw [e3])
  have w4 := single_page_walk parseBlockData catchesEverything
    "Unexpected response format received for block children."
    ("/v1/blocks/" ++ blkId ++ "/children") (clampPageSize pageSize) rfl
    [goodB, badB] (by rw [e4])
  rw [e1] at w1
  rw [e2] at w2
  rw [e3] at w3
  rw [e4] at w4
  simp only [NotionClient.query_database, NotionClient.retrieve_block_children]
  rw [w1, w2, w3, w4]
  exact ⟨⟨rfl, rfl⟩, ⟨rfl, rfl⟩, ⟨rfl, rfl⟩, ⟨rfl, rfl⟩⟩

/-- Witness for C2 at a concrete mixed page. -/
theorem c2_witness :
    validatePage .null = .error (.validationError "Page")
    ∧ validatePage samplePageJSON = .ok samplePage
    ∧ parseBlockData (.obj []) = .error (.betelgeuseError "Failed to parse base block data for ID unknown_id")
    ∧ parseBlockData sampleBlockJSON = .ok sampleBlock
    ∧ (((NotionClient.query_database "db" 100
          [mkListPage [.null, samplePageJSON] false .null]).items = [samplePage]
        ∧ (NotionClient.query_database "db" 100
            [mkListPage [.null, samplePageJSON] false .null]).stop = .done)
      ∧ ((NotionClient.query_database "db" 100
            [mkListPage [samplePageJSON, .null] false .null]).items = [samplePage]
        ∧ (NotionClient.query_database "db" 100
            [mkListPage [samplePageJSON, .null] false .null]).stop = .done)
      ∧ ((NotionClient.retrieve_block_children "blk" 100
            [mkListPage [.obj [], sampleBlockJSON] false .null]).items = [sampleBlock]
        ∧ (NotionClient.retrieve_block_children "blk" 100
            [mkListPage [.obj [], sampleBlockJSON] false .null]).stop = .done)
      ∧ ((NotionClient.retrieve_block_children "blk" 100
            [mkListPage [sampleBlockJSON, .obj []] false .null]).items = [sampleBlock]
        ∧ (NotionClient.retrieve_block_children "blk" 100
            [mkListPage [sampleBlockJSON, .obj []] false .null]).stop = .done)) :=
  ⟨rfl, rfl, rfl, rfl,
    c2_per_item_isolation "db" "blk" 100 .null samplePageJSON (.obj []) sampleBlockJSON
      samplePage sampleBlock "Page" "Failed to parse base block data for ID unknown_id"
      rfl rfl rfl rfl⟩

/-- Claim C3: when transport call k of a walk (after k-1 healthy pages)
raises an APIRejection or TransportFailure, the consumer observes
exactly the items of the first k-1 pages, the exception propagates
unchanged, and exactly k transport calls are issued. -/
theorem c3_midstream_failure
    (dbId blkId : String) (pageSize : Int)
    (specs : List (List JSON × String)) (bad : TransportOutcome) (e : PyExc)
    (_hne : specs ≠ [])
    (hbad : ∀ path, startsWithSlash path = true →
      BaseAPIClient.request path bad = .error e)
    (_hkind : e.isAPIOrTransport = true) :
    ((NotionClient.query_database dbId pageSize (goodPages specs ++ [bad])).stop = .exc e
      ∧ (NotionClient.query_database dbId pageSize (goodPages specs ++ [bad])).calls.length
          = specs.length + 1
      ∧ (NotionClient.query_database dbId pageSize (goodPages specs ++ [bad])).items
          = prefixItems validatePage catchesValidationError specs)
    ∧ ((NotionClient.retrieve_block_children blkId pageSize (goodPages specs ++ [bad])).stop = .exc e
      ∧ (NotionClient.retrieve_block_children blkId pageSize (goodPages specs ++ [bad])).calls.length
          = specs.length + 1
      ∧ (NotionClient.retrieve_block_children blkId pageSize (goodPages specs ++ [bad])).items
          = prefixItems parseBlockData catchesEverything specs) := by
  constructor
  · simp only [NotionClient.query_database]
    rw [walk_good_then_error validatePage catchesValidationError
      "Unexpected response format received for database query."
      ("/v1/databases/" ++ dbId ++ "/query") (clampPageSize pageSize) rfl
      validatePage_caught specs bad e (hbad _ rfl)]
    exact ⟨rfl, by simp [prefixCalls_length], rfl⟩
  · simp only [NotionClient.retrieve_block_children]
    rw [walk_good_then_error parseBlockData catchesEverything
      "Unexpected response format received for block children."
      ("/v1/blocks/" ++ blkId ++ "/children") (clampPageSize pageSize) rfl
      parseBlockData_caught specs bad e (hbad _ rfl)]
    exact ⟨rfl, by simp [prefixCalls_length], rfl⟩

/-- Witness for C3: a healthy first page, then a transport failure on
the second call. -/
theorem c3_witness :
    ([([samplePageJSON], "cur1")] : List (List JSON × String)) ≠ []
    ∧ (∀ path, startsWithSlash path = true →
        BaseAPIClient.request path (.exn "boom")
          = .error (.notionRequestError "HTTP Request failed: boom"))
    ∧ PyExc.isAPIOrTransport (.notionRequestError "HTTP Request failed: boom") = true
    ∧ (((NotionClient.query_database "db" 100
          (goodPages [([samplePageJSON], "cur1")] ++ [.exn "boom"])).stop
            = .exc (.notionRequestError "HTTP Request failed: boom")
        ∧ (NotionClient.query_database "db" 100
            (goodPages [([samplePageJSON], "cur1")] ++ [.exn "boom"])).calls.length
              = ([([samplePageJSON], "cur1")] : List (List JSON × String)).length + 1
        ∧ (NotionClient.query_database "db" 100
            (goodPages [([samplePageJSON], "cur1")] ++ [.exn "boom"])).items
              = prefixItems validatePage catchesValidationError [([samplePageJSON], "cur1")])
      ∧ ((NotionClient.retrieve_block_children "blk" 100
            (goodPages [([samplePageJSON], "cur1")] ++ [.exn "boom"])).stop
              = .exc (.notionRequestError "HTTP Request failed: boom")
        ∧ (NotionClient.retrieve_block_children "blk" 100
            (goodPages [([samplePageJSON], "cur1")] ++ [.exn "boom"])).calls.length
              = ([([samplePageJSON], "cur1")] : List (List JSON × String)).length + 1
        ∧ (NotionClient.retrieve_block_children "blk" 100
            (goodPages [([samplePageJSON], "cur1")] ++ [.exn "boom"])).items
              = prefixItems parseBlockData catchesEverything [([samplePageJSON], "cur1")])) :=
  ⟨List.cons_ne_nil _ _,
   fun path hp => by simp [BaseAPIClient.request, hp],
   rfl,
   c3_midstream_failure "db" "blk" 100 [([samplePageJSON], "cur1")] (.exn "boom")
     (.notionRequestError "HTTP Request failed: boom")
     (List.cons_ne_nil _ _)
     (fun path hp => by simp [BaseAPIClient.request, hp])
     rfl⟩

/-- Counterexample to claim C4: a 404 response whose body decodes to an
object that lacks the code key raises APIRejection with error_code
unknown_api_code (the dict.get default of api/base.py line 131), not
unknown_error_format as the claim states for missing code/message keys. -/
theorem c4_counterexample :
    BaseAPIClient.request "/v1/pages/p"
        (.resp ⟨404, JSON.render (.obj [("message", .str "hi")]),
          some (.obj [("message", .str "hi")])⟩)
      = .error (.notionAPIError 404 (.str "unknown_api_code") (.str "hi"))
    ∧ JSON.str "unknown_api_code" ≠ JSON.str "unknown_error_format" :=
  ⟨rfl, by decide⟩

/-- Claim C4 as amended: on a non-2xx response, request raises
APIRejection; when the body decodes to a JSON object, the code and
message fields become the error_code and message with the defaults
unknown_api_code and "No message provided." for missing keys; only when
the body is not decodable at all is the error_code unknown_error_format
with a message carrying the first 200 characters of the raw body. -/
theorem c4_error_response_classification
    (path : String) (r : HTTPResponse)
    (hpath : startsWithSlash path = true)
    (hstat : 400 ≤ r.status ∧ r.status < 600) :
    (∀ fs, r.json? = some (.obj fs) →
      BaseAPIClient.request path (.resp r)
        = .error (.notionAPIError r.status
            (JSON.dictGet fs "code" (.str "unknown_api_code"))
            (JSON.dictGet fs "message" (.str "No message provided."))))
    ∧ (r.json? = none →
      BaseAPIClient.request path (.resp r)
        = .error (.notionAPIError r.status (.str "unknown_error_format")
            (.str ("Unknown error format. Response body: "
              ++ (if r.text = "" then "No response body" else r.text).take 200 ++ "...")))) := by
  have hok : r.ok = false := by
    simp [HTTPResponse.ok]
    omega
  constructor
  · intro fs hjson
    simp [BaseAPIClient.request, hpath, hok, hjson]
  · intro hjson
    simp [BaseAPIClient.request, hpath, hok, hjson]

/-- Witness for the amended C4 at the documented 404 scenario. -/
theorem c4_witness :
    startsWithSlash "/v1/pages/p" = true
    ∧ (400 ≤ (404 : Int) ∧ (404 : Int) < 600)
    ∧ BaseAPIClient.request "/v1/pages/p"
        (.resp ⟨404,
          JSON.render (.obj [("code", .str "object_not_found"), ("message", .str "Could not find page.")]),
          some (.obj [("code", .str "object_not_found"), ("message", .str "Could not find page.")])⟩)
      = .error (.notionAPIError 404
          (JSON.dictGet [("code", .str "object_not_found"), ("message", .str "Could not find page.")]
            "code" (.str "unknown_api_code"))
          (JSON.dictGet [("code", .str "object_not_found"), ("message", .str "Could not find page.")]
            "message" (.str "No message provided.")))
    ∧ JSON.dictGet [("code", .str "object_not_found"), ("message", .str "Could not find page.")]
        "code" (.str "unknown_api_code") = .str "object_not_found" :=
  ⟨rfl, by decide,
   (c4_error_response_classification "/v1/pages/p"
      ⟨404,
        JSON.render (.obj [("code", .str "object_not_found"), ("message", .str "Could not find page.")]),
        some (.obj [("code", .str "object_not_found"), ("message", .str "Could not find page.")])⟩
      rfl (by decide)).1
     [("code", .str "object_not_found"), ("message", .str "Could not find page.")] rfl,
   rfl⟩

/-- Claim C5: a block payload whose type string is absent from
BLOCK_TYPE_MAP is parsed by the factory against the generic Block
shape: when that validation succeeds the factory returns the generic
instance (base Block class, type preserved verbatim) and raises
nothing; only when even the generic validation fails does it raise the
LocalFailure BetelgeuseError. -/
theorem c5_block_factory_fallback
    (fs : List (String × JSON)) (s : String)
    (hty : JSON.lookup fs "type" = some (.str s))
    (hs : s ≠ "")
    (hmap : BLOCK_TYPE_MAP.contains s = false) :
    (∀ b, validateBlock (.obj fs) = .ok b →
      parseBlockData (.obj fs) = .ok b ∧ b.variant = none ∧ b.type = s)
    ∧ (∀ e, validateBlock (.obj fs) = .error e →
      parseBlockData (.obj fs)
        = .error (.betelgeuseError ("Failed to parse base block data for ID "
            ++ JSON.pyStr (JSON.dictGet fs "id" (.str "unknown_id"))))) := by
  have hmem : s ∉ BLOCK_TYPE_MAP := by simpa using hmap
  have hparse : parseBlockData (.obj fs) = blockFallback fs := by
    simp [parseBlockData, JSON.dictGet, hty, JSON.truthy, hs, hmap, hmem]
  constructor
  · intro b hok
    have hform : b = mkBlock none "" fs := by
      unfold validateBlock at hok
      by_cases hcond : (baseFieldsOk fs && objectLitOk fs "block"
          && reqOk fs "type" isStrJSON && optOk fs "has_children" isBoolJSON
          && blockContentFields.all (fun k => optOk fs k isObjOrNull)) = true
      · simp [hcond] at hok
        exact hok.symm
      · simp [hcond] at hok
    refine ⟨by rw [hparse]; simp [blockFallback, hok], ?_, ?_⟩
    · rw [hform]
      rfl
    · rw [hform]
      simp [mkBlock, hty]
  · intro e herr
    rw [hparse]
    simp [blockFallback, herr]

/-- Witness for C5 at a concrete unmapped block type. -/
theorem c5_witness :
    JSON.lookup
        [("id", .str "b1"), ("object", .str "block"), ("type", .str "my_custom"),
         ("created_time", .num 0), ("last_edited_time", .num 0), ("parent", .obj [])]
        "type" = some (.str "my_custom")
    ∧ "my_custom" ≠ ""
    ∧ BLOCK_TYPE_MAP.contains "my_custom" = false
    ∧ validateBlock sampleBlockJSON = .ok sampleBlock
    ∧ parseBlockData sampleBlockJSON = .ok sampleBlock
    ∧ sampleBlock.variant = none
    ∧ sampleBlock.type = "my_custom" := by
  have h := (c5_block_factory_fallback
    [("id", .str "b1"), ("object", .str "block"), ("type", .str "my_custom"),
     ("created_time", .num 0), ("last_edited_time", .num 0), ("parent", .obj [])]
    "my_custom" rfl (by decide) (by decide)).1 sampleBlock rfl
  exact ⟨rfl, by decide, by decide, rfl, h.1, h.2.1, h.2.2⟩

/-- Claim C6: a page_size argument outside [1, 100] is clamped to 100
before the first request: both list operations behave exactly as if
called with 100, and every issued request carries page_size 100. -/
theorem c6_page_size_clamped
    (dbId blkId : String) (pageSize : Int)
    (outcomes : List TransportOutcome)
    (hps : ¬ (1 ≤ pageSize ∧ pageSize ≤ 100)) :
    NotionClient.query_database dbId pageSize outcomes
        = NotionClient.query_database dbId 100 outcomes
    ∧ NotionClient.retrieve_block_children blkId pageSize outcomes
        = NotionClient.retrieve_block_children blkId 100 outcomes
    ∧ (∀ c ∈ (NotionClient.query_database dbId pageSize outcomes).calls,
        c.pageSize = 100)
    ∧ (∀ c ∈ (NotionClient.retrieve_block_children blkId pageSize outcomes).calls,
        c.pageSize = 100) := by
  have hclamp : clampPageSize pageSize = 100 := by
    simp [clampPageSize, hps]
  have hq : NotionClient.query_database dbId pageSize outcomes
      = NotionClient.query_database dbId 100 outcomes := by
    simp only [NotionClient.query_database]
    rw [hclamp]
    norm_num [clampPageSize]
  have hb : NotionClient.retrieve_block_children blkId pageSize outcomes
      = NotionClient.retrieve_block_children blkId 100 outcomes := by
    simp only [NotionClient.retrieve_block_children]
    rw [hclamp]
    norm_num [clampPageSize]
  refine ⟨hq, hb, ?_, ?_⟩
  · intro c hc
    have hall := paginateGo_calls_pageSize validatePage catchesValidationError
      "Unexpected response format received for database query."
      ("/v1/databases/" ++ dbId ++ "/query") (clampPageSize pageSize) outcomes .null
    rw [List.all_eq_true] at hall
    have := hall c hc
    rw [hclamp] at this
    exact eq_of_beq this
  · intro c hc
    have hall := paginateGo_calls_pageSize parseBlockData catchesEverything
      "Unexpected response format received for block children."
      ("/v1/blocks/" ++ blkId ++ "/children") (clampPageSize pageSize) outcomes .null
    rw [List.all_eq_true] at hall
    have := hall c hc
    rw [hclamp] at this
    exact eq_of_beq this

/-- Witness for C6 at the documented out-of-range value 500. -/
theorem c6_witness :
    (¬ (1 ≤ (500 : Int) ∧ (500 : Int) ≤ 100))
    ∧ NotionClient.query_database "db" 500 [mkListPage [] false .null]
        = NotionClient.query_database "db" 100 [mkListPage [] false .null]
    ∧ NotionClient.retrieve_block_children "blk" 500 [mkListPage [] false .null]
        = NotionClient.retrieve_block_children "blk" 100 [mkListPage [] false .null]
    ∧ (∀ c ∈ (NotionClient.query_database "db" 500 [mkListPage [] false .null]).calls,
        c.pageSize = 100)
    ∧ (∀ c ∈ (NotionClient.retrieve_block_children "blk" 500 [mkListPage [] false .null]).calls,
        c.pageSize = 100) :=
  ⟨by decide,
   (c6_page_size_clamped "db" "blk" 500 [mkListPage [] false .null] (by decide)).1,
   (c6_page_size_clamped "db" "blk" 500 [mkListPage [] false .null] (by decide)).2.1,
   (c6_page_size_clamped "db" "blk" 500 [mkListPage [] false .null] (by decide)).2.2.1,
   (c6_page_size_clamped "db" "blk" 500 [mkListPage [] false .null] (by decide)).2.2.2⟩

/-- Claim C7: requests with a success status return an empty object for
a 204 status or an empty body, and raise the LocalFailure
BetelgeuseError (never an APIRejection) for a non-empty body that is
not decodable as JSON. -/
theorem c7_success_body_handling
    (path : String) (r1 r2 : HTTPResponse)
    (hpath : startsWithSlash path = true)
    (hok1 : r1.ok = true) (hok2 : r2.ok = true)
    (hempty : r1.status = 204 ∨ r1.text = "")
    (h2s : r2.status ≠ 204) (h2t : r2.text ≠ "") (h2j : r2.json? = none) :
    BaseAPIClient.request path (.resp r1) = .ok (.obj [])
    ∧ BaseAPIClient.request path (.resp r2)
        = .error (.betelgeuseError
            ("Failed to decode successful API response JSON: " ++ r2.text.take 200 ++ "..."))
    ∧ (∀ s c m, BaseAPIClient.request path (.resp r2)
        ≠ .error (.notionAPIError s c m)) := by
  refine ⟨?_, ?_, ?_⟩
  · simp [BaseAPIClient.request, hpath, hok1, hempty]
  · simp [BaseAPIClient.request, hpath, hok2, h2s, h2t, h2j]
  · intro s c m
    simp [BaseAPIClient.request, hpath, hok2, h2s, h2t, h2j]

/-- Witness for C7 at a concrete 204 and a concrete undecodable 200. -/
theorem c7_witness :
    startsWithSlash "/v1/pages/p" = true
    ∧ HTTPResponse.ok ⟨204, "", none⟩ = true
    ∧ HTTPResponse.ok ⟨200, "zz", none⟩ = true
    ∧ ((204 : Int) = 204 ∨ ("" : String) = "")
    ∧ (200 : Int) ≠ 204
    ∧ ("zz" : String) ≠ ""
    ∧ (BaseAPIClient.request "/v1/pages/p" (.resp ⟨204, "", none⟩) = .ok (.obj [])
      ∧ BaseAPIClient.request "/v1/pages/p" (.resp ⟨200, "zz", none⟩)
          = .error (.betelgeuseError
              ("Failed to decode successful API response JSON: " ++ ("zz" : String).take 200 ++ "..."))
      ∧ (∀ s c m, BaseAPIClient.request "/v1/pages/p" (.resp ⟨200, "zz", none⟩)
          ≠ .error (.notionAPIError s c m))) :=
  ⟨rfl, by decide, by decide, by decide, by decide, by decide,
   c7_success_body_handling "/v1/pages/p" ⟨204, "", none⟩ ⟨200, "zz", none⟩
     rfl (by decide) (by decide) (by decide) (by decide) (by decide) rfl⟩

/-- Claim C8 failing input: a non-2xx response whose body decodes to a
JSON array.  error_data.get raises AttributeError, which neither the
inner except clause (JSONDecodeError, KeyError, TypeError) nor the
outer except RequestException catches, so a non-library exception
escapes the transport operation, contradicting the three-kinds
contract. -/
theorem c8_nonlibrary_exception_escapes :
    BaseAPIClient.request "/v1/pages/x"
        (.resp ⟨400, "[1, 2]", some (.arr [.num 1, .num 2])⟩)
      = .error (.attributeError
          "error body decoded to a non-dict value; error_data.get raised AttributeError")
    ∧ PyExc.isTaxonomyError (.attributeError
          "error body decoded to a non-dict value; error_data.get raised AttributeError")
      = false :=
  ⟨rfl, rfl⟩

/-- Counterexample to claim C9: a payload whose id is the empty string
validates successfully for Page, Database and Block alike, producing a
domain object whose id is empty — pydantic str has no minimum length. -/
theorem c9_counterexample :
    validatePage (.obj [("id", .str ""), ("created_time", .num 0),
        ("last_edited_time", .num 0), ("parent", .obj [])])
      = .ok ⟨"", .num 0, .num 0, false, .obj [], "", []⟩
    ∧ validateDatabase (.obj [("id", .str ""), ("created_time", .num 0),
        ("last_edited_time", .num 0), ("parent", .obj [])])
      = .ok ⟨"", .num 0, .num 0, false, .obj [], "", [], [], [], false⟩
    ∧ validateBlock (.obj [("id", .str ""), ("created_time", .num 0),
        ("last_edited_time", .num 0), ("parent", .obj []), ("type", .str "t")])
      = .ok ⟨"", "t", false, false, .obj [], "", none⟩
    ∧ (⟨"", .num 0, .num 0, false, .obj [], "", []⟩ : Page).id = "" :=
  ⟨rfl, rfl, rfl, rfl⟩

/-- Claim C9 as amended: id is a required field of string type — a
payload lacking id never produces a Page, Database or Block, and a
successfully parsed Page carries verbatim the string the payload bound
to id — but the empty string is accepted (see the counterexample). -/
theorem c9_id_required_string
    (fs : List (String × JSON)) (hid : JSON.lookup fs "id" = none) :
    validatePage (.obj fs) = .error (.validationError "Page")
    ∧ validateDatabase (.obj fs) = .error (.validationError "Database")
    ∧ validateBlock (.obj fs) = .error (.validationError "Block")
    ∧ (∀ gs p, validatePage (.obj gs) = .ok p →
        JSON.lookup gs "id" = some (.str p.id)) := by
  have hreq : reqOk fs "id" isStrJSON = false := by simp [reqOk, hid]
  have hbase : baseFieldsOk fs = false := by simp [baseFieldsOk, hreq]
  refine ⟨by simp [validatePage, hbase], by simp [validateDatabase, hbase],
    by simp [validateBlock, hbase], ?_⟩
  intro gs p hok
  simp only [validatePage] at hok
  by_cases hcond : (baseFieldsOk gs && objectLitOk gs "page"
      && optOk gs "properties" (fun v =>
           match v with
           | .obj ps => ps.all (fun q => isObjJSON q.2)
           | _ => false)
      && optOk gs "icon" isObjOrNull
      && optOk gs "cover" isObjOrNull) = true
  · rw [if_pos hcond] at hok
    have hp := (Except.ok.inj hok).symm
    subst hp
    have hidreq : reqOk gs "id" isStrJSON = true := by
      simp only [baseFieldsOk, Bool.and_eq_true] at hcond
      tauto
    rcases hv : JSON.lookup gs "id" with _ | v
    · rw [reqOk, hv] at hidreq
      simp at hidreq
    · have hstr : isStrJSON v = true := by
        rw [reqOk, hv] at hidreq
        exact hidreq
      cases v <;> simp [isStrJSON] at hstr
      simp [getStrD, hv]
  · rw [if_neg hcond] at hok
    cases hok

/-- Witness for the amended C9 at the empty payload. -/
theorem c9_witness :
    JSON.lookup [] "id" = none
    ∧ (validatePage (.obj []) = .error (.validationError "Page")
      ∧ validateDatabase (.obj []) = .error (.validationError "Database")
      ∧ validateBlock (.obj []) = .error (.validationError "Block")
      ∧ (∀ gs p, validatePage (.obj gs) = .ok p →
          JSON.lookup gs "id" = some (.str p.id))) :=
  ⟨rfl, c9_id_required_string [] rfl⟩

/-- Claim C10: a block payload without a type key never parses: the
falsy type is replaced by the unmapped string unknown, the generic
fallback requires a type string field, its validation fails, and the
factory raises the LocalFailure BetelgeuseError. -/
theorem c10_missing_type_always_fails
    (fs : List (String × JSON)) (hty : JSON.lookup fs "type" = none) :
    parseBlockData (.obj fs)
      = .error (.betelgeuseError ("Failed to parse base block data for ID "
          ++ JSON.pyStr (JSON.dictGet fs "id" (.str "unknown_id"))))
    ∧ (∀ b, parseBlockData (.obj fs) ≠ .ok b) := by
  have h1 : parseBlockData (.obj fs) = blockFallback fs := by
    simp [parseBlockData, JSON.dictGet, hty, JSON.truthy, BLOCK_TYPE_MAP]
  have hreq : reqOk fs "type" isStrJSON = false := by simp [reqOk, hty]
  have h2 : validateBlock (.obj fs) = .error (.validationError "Block") := by
    simp [validateBlock, hreq]
  refine ⟨by rw [h1]; simp [blockFallback, h2], ?_⟩
  intro b
  rw [h1]
  simp [blockFallback, h2]

/-- Witness for C10 at the empty block payload. -/
theorem c10_witness :
    JSON.lookup [] "type" = none
    ∧ (parseBlockData (.obj [])
        = .error (.betelgeuseError ("Failed to parse base block data for ID "
            ++ JSON.pyStr (JSON.dictGet [] "id" (.str "unknown_id"))))
      ∧ (∀ b, parseBlockData (.obj []) ≠ .ok b)) :=
  ⟨rfl, c10_missing_type_always_fails [] rfl⟩

end Orion
